import Mathlib

/-!
# Festival stall ordering API

A shallow embedding of `src/models.cjs` (the three document schemas) and of the
JSON routes of `src/server.js`.  The document store is explicit state: three
lists of documents.  Every route is a function from the store and the request
to a response (and, for the writing routes, the next store).

Conventions of the embedding
* an `ObjectId` is the 96-bit number written by its 24 hexadecimal digits; a
  route parameter or a body field is a string and is cast on use, a string
  that is not 24 hexadecimal digits failing the cast (the route then answers
  through its `catch` branch);
* a JSON number of a request body is a decimal literal; `express.json()` turns
  it into the nearest IEEE double (ties to even, overflow to an infinity), and
  a schema `Number` is such a double, kept as sign, significand and binary
  exponent; no route does arithmetic on one, the validators compare it with
  a minimum and `res.json` prints it (an infinity as null);
* a `Date` is a count of milliseconds;
* a body field is `none` when the request does not supply it;
* `find(...).sort(...)` is a filter followed by a stable sort.
-/

namespace Festival

/-! ## Values -/

/-- The store's 12-byte identifier, as the number its 24 hex digits denote. -/
structure ObjectId where
  val : Nat
deriving DecidableEq, Repr

/-- Milliseconds since the epoch. -/
abbrev Date := Int

/-- A JSON number literal as a request carries it: sign, decimal digits and decimal
exponent, as in `-1e-400`, `5.99` (599 with exponent -2) or `2`. -/
structure JsonNumber where
  negative : Bool
  digits : Nat
  exp10 : Int
deriving DecidableEq, Repr

/-- The exact value a JSON number literal denotes. -/
def JsonNumber.value (j : JsonNumber) : ℚ :=
  (if j.negative then -1 else 1) * (j.digits : ℚ) * (10 : ℚ) ^ j.exp10

/-- A schema `Number`: an IEEE double as parsing can produce it, that is, a finite
`± significand × 2 ^ exponent` or an infinity (parsing yields no NaN, and the cast
refuses one). -/
inductive Number where
  | finite (negative : Bool) (significand : Nat) (exponent : Int)
  | infinite (negative : Bool)
deriving DecidableEq, Repr

/-- The comparison `value >= min` of a `min` validator. -/
def Number.ge (x : Number) (min : ℚ) : Bool :=
  match x with
  | .finite neg n k => decide (min ≤ (if neg then -1 else 1) * (n : ℚ) * (2 : ℚ) ^ k)
  | .infinite neg => !neg

/-- What `res.json` prints for a number: its value, both zeros as 0, or null for an
infinity.  (The printed decimal is the shortest one that parses back to the double;
it is identified here with the double's value.) -/
def Number.toJSON : Number → Option ℚ
  | .finite neg n k => some ((if neg then -1 else 1) * (n : ℚ) * (2 : ℚ) ^ k)
  | .infinite _ => none

/-- Nearest integer to `num / den`, ties to the even one. -/
def roundHalfEven (num den : Nat) : Nat :=
  let f := num / den
  let r := num % den
  if 2 * r < den then f
  else if den < 2 * r then f + 1
  else if f % 2 = 0 then f else f + 1

/-- Number of binary digits of `n` (the first argument bounds the recursion). -/
def bitLength : Nat → Nat → Nat
  | 0, _ => 0
  | fuel + 1, n => if n = 0 then 0 else bitLength fuel (n / 2) + 1

/-- The integer `e` with `2 ^ e ≤ num / den < 2 ^ (e + 1)`, for positive `num`, `den`. -/
def floorLog2 (num den : Nat) : Int :=
  let e0 : Int := (bitLength num num : Int) - (bitLength den den : Int)
  if 0 ≤ e0 then (if den * 2 ^ e0.toNat ≤ num then e0 else e0 - 1)
  else (if den ≤ num * 2 ^ (-e0).toNat then e0 else e0 - 1)

/-- Rounding of the magnitude `num / den` to a double: 53 significant bits, exponent
no lower than that of the subnormals, ties to even; `none` is overflow. -/
def roundMagnitude (num den : Nat) : Option (Nat × Int) :=
  if num = 0 then some (0, -1074)
  else
    let k : Int := max (floorLog2 num den) (-1022) - 52
    let n : Nat :=
      if 0 ≤ k then roundHalfEven num (den * 2 ^ k.toNat)
      else roundHalfEven (num * 2 ^ (-k).toNat) den
    let r : Nat × Int := if n = 2 ^ 53 then (2 ^ 52, k + 1) else (n, k)
    if r.2 ≤ 971 then some r else none

/-- The double that `express.json()` (JSON.parse) makes of a number literal. -/
def parseNumber (j : JsonNumber) : Number :=
  match roundMagnitude (j.digits * 10 ^ j.exp10.toNat) (10 ^ (-j.exp10).toNat) with
  | some r => .finite j.negative r.1 r.2
  | none => .infinite j.negative

/-- Value of one hexadecimal digit, either case. -/
def hexDigit (c : Char) : Option Nat :=
  let n := c.toNat
  if 48 ≤ n ∧ n ≤ 57 then some (n - 48)
  else if 97 ≤ n ∧ n ≤ 102 then some (n - 87)
  else if 65 ≤ n ∧ n ≤ 70 then some (n - 55)
  else none

/-- Reads hexadecimal digits left to right onto an accumulator. -/
def parseHex : List Char → Nat → Option Nat
  | [], acc => some acc
  | c :: cs, acc =>
    match hexDigit c with
    | some d => parseHex cs (16 * acc + d)
    | none => none

/-- Cast of a string to `ObjectId`: exactly 24 hexadecimal digits, or a cast error. -/
def castObjectId (s : String) : Option ObjectId :=
  if s.data.length = 24 then (parseHex s.data 0).map ObjectId.mk else none

/-! ## Documents (`models.cjs`) -/

/-- A document of `stallSchema`. -/
structure Stall where
  _id : ObjectId
  name : String
  description : String
  owner_email : String
  created_at : Date
deriving DecidableEq, Repr

/-- A document of `menuItemSchema`. -/
structure MenuItem where
  _id : ObjectId
  stall_id : ObjectId
  name : String
  description : String
  price : Number
  available : Bool
  created_at : Date
deriving DecidableEq, Repr

/-- A subdocument of `orderItemSchema` (it has no `_id`). -/
structure OrderItem where
  menu_item_id : ObjectId
  quantity : Number
  price : Number
  item_name : String
deriving DecidableEq, Repr

/-- A document of `orderSchema`. -/
structure Order where
  _id : ObjectId
  stall_id : ObjectId
  customer_name : String
  customer_email : String
  customer_phone : String
  pickup_time : Date
  status : String
  total_amount : Number
  items : List OrderItem
  created_at : Date
deriving DecidableEq, Repr

/-- The document store: the three collections. -/
structure DB where
  stalls : List Stall
  menuItems : List MenuItem
  orders : List Order
deriving DecidableEq, Repr

/-! ## Requests and responses -/

/-- One element of `items` in the JSON body of `POST /api/orders`, as sent. -/
structure ItemBody where
  menu_item_id : Option String
  quantity : Option JsonNumber
  price : Option JsonNumber
  item_name : Option String
deriving DecidableEq, Repr

/-- One element of `req.body.items`, as `express.json()` parsed it. -/
structure ItemInput where
  menu_item_id : Option String
  quantity : Option Number
  price : Option Number
  item_name : Option String
deriving DecidableEq, Repr

/-- Parsing of one element of `items` by `express.json()`. -/
def ItemBody.parse (b : ItemBody) : ItemInput :=
  { menu_item_id := b.menu_item_id
    quantity := b.quantity.map parseNumber
    price := b.price.map parseNumber
    item_name := b.item_name }

/-- The JSON body of `POST /api/orders`, as sent. -/
structure OrderBody where
  stall_id : Option String
  customer_name : Option String
  customer_email : Option String
  customer_phone : Option String
  pickup_time : Option String
  status : Option String
  total_amount : Option JsonNumber
  items : Option (List ItemBody)
deriving DecidableEq, Repr

/-- The object literal handed to `new Order(...)`. -/
structure OrderInput where
  stall_id : Option String
  customer_name : Option String
  customer_email : Option String
  customer_phone : Option String
  pickup_time : Option Date
  status : Option String
  total_amount : Option Number
  items : Option (List ItemInput)

/-- What `res.json` / `res.status(500).json` sends: a payload or `{error: msg}`. -/
inductive Body (α : Type) where
  | data (a : α)
  | error (msg : String)
deriving DecidableEq, Repr

/-- An HTTP response: status code and JSON body. -/
structure Response (α : Type) where
  status : Nat
  body : Body α
deriving DecidableEq, Repr

/-- The success payload of `POST /api/orders`. -/
structure Created where
  success : Bool
  orderId : ObjectId
deriving DecidableEq, Repr

/-! ## Schema validation (`models.cjs`) -/

/-- The declared enumeration of `orderSchema.status`. -/
def statusEnum : List String := ["pending", "preparing", "ready", "completed"]

/-- A required `String` path: supplied and not empty. -/
def requiredString : Option String → Option String
  | some s => if s = "" then none else some s
  | none => none

/-- A required `Number` path with a `min`. -/
def requiredMin (min : ℚ) : Option Number → Option Number
  | some x => if x.ge min then some x else none
  | none => none

/-- A required `ObjectId` path: supplied and castable. -/
def requiredObjectId : Option String → Option ObjectId
  | some s => castObjectId s
  | none => none

/-- Casting and validation of one line item against `orderItemSchema`:
`menu_item_id` required, `quantity` required with `min: 1`, `price` required
with `min: 0`, `item_name` required. -/
def orderItemSchema (b : ItemInput) : Option OrderItem :=
  match requiredObjectId b.menu_item_id, requiredMin 1 b.quantity,
        requiredMin 0 b.price, requiredString b.item_name with
  | some m, some q, some p, some n => some ⟨m, q, p, n⟩
  | _, _, _, _ => none

/-- The path `items: [orderItemSchema]`: every element must validate. -/
def itemsSchema : List ItemInput → Option (List OrderItem)
  | [] => some []
  | b :: bs =>
    match orderItemSchema b, itemsSchema bs with
    | some i, some is => some (i :: is)
    | _, _ => none

/-- The path `status`: default `'pending'`, otherwise a member of the enumeration. -/
def statusSchema : Option String → Option String
  | none => some "pending"
  | some s => if s ∈ statusEnum then some s else none

/-- Casting and validation of a new document against `orderSchema`; `_id` and the
`created_at` default (`Date.now`) are supplied by the environment.  `none` is a
validation failure. -/
def orderSchema (inp : OrderInput) (newId : ObjectId) (now : Date) : Option Order :=
  match requiredObjectId inp.stall_id, requiredString inp.customer_name,
        requiredString inp.customer_email, requiredString inp.customer_phone,
        inp.pickup_time, statusSchema inp.status,
        requiredMin 0 inp.total_amount, itemsSchema (inp.items.getD []) with
  | some sid, some cn, some ce, some cp, some pt, some st, some ta, some its =>
    some ⟨newId, sid, cn, ce, cp, pt, st, ta, its, now⟩
  | _, _, _, _, _, _, _, _ => none

/-! ## Store operations -/

/-- The store's `findById`. -/
def findById {α : Type} (key : α → ObjectId) (l : List α) (id : ObjectId) : Option α :=
  l.find? (fun d => key d = id)

/-- The update `{ status }` applied to one document; an undefined `status` leaves
the update empty. -/
def setStatus (status : Option String) (o : Order) : Order :=
  match status with
  | some s => { o with status := s }
  | none => o

/-- The collection after `findByIdAndUpdate(id, { status })`: the first document with
that `_id` is updated, without running validators. -/
def updateById (id : ObjectId) (status : Option String) : List Order → List Order
  | [] => []
  | o :: os => if o._id = id then setStatus status o :: os else o :: updateById id status os

/-- The call `Order.findByIdAndUpdate(id, { status }, { new: true })`: the updated
document (or null) and the collection afterwards. -/
def findByIdAndUpdate (orders : List Order) (id : ObjectId) (status : Option String) :
    Option Order × List Order :=
  ((findById Order._id orders id).map (setStatus status), updateById id status orders)

/-- The sort `{ name: 1 }` on menu items. -/
def sortByName (l : List MenuItem) : List MenuItem :=
  l.insertionSort (fun a b => a.name ≤ b.name)

/-- The sort `{ created_at: -1 }` on orders. -/
def sortByCreatedDesc (l : List Order) : List Order :=
  l.insertionSort (fun a b => b.created_at ≤ a.created_at)

/-- A line item after `populate('items.menu_item_id')`. -/
structure PopulatedItem where
  menu_item_id : Option MenuItem
  quantity : Number
  price : Number
  item_name : String
deriving DecidableEq, Repr

/-- An order after `populate('stall_id').populate('items.menu_item_id')`. -/
structure PopulatedOrder where
  _id : ObjectId
  stall_id : Option Stall
  customer_name : String
  customer_email : String
  customer_phone : String
  pickup_time : Date
  status : String
  total_amount : Number
  items : List PopulatedItem
  created_at : Date
deriving DecidableEq, Repr

/-- Resolution of one line item's reference: the referenced document, or null when
no MenuItem has that `_id`. -/
def populateItem (db : DB) (i : OrderItem) : PopulatedItem :=
  { menu_item_id := findById MenuItem._id db.menuItems i.menu_item_id
    quantity := i.quantity
    price := i.price
    item_name := i.item_name }

/-- Resolution of an order's references. -/
def populate (db : DB) (o : Order) : PopulatedOrder :=
  { _id := o._id
    stall_id := findById Stall._id db.stalls o.stall_id
    customer_name := o.customer_name
    customer_email := o.customer_email
    customer_phone := o.customer_phone
    pickup_time := o.pickup_time
    status := o.status
    total_amount := o.total_amount
    items := o.items.map (populateItem db)
    created_at := o.created_at }

/-! ## Routes (`server.js`) -/

/-- The expression `new Date(pickup_time)`: an undefined argument gives an invalid date;
a string is parsed by the host's date parser. -/
def newDate (parseDate : String → Option Date) : Option String → Option Date
  | some s => parseDate s
  | none => none

/-- Route `GET /api/menu/:stallId`. -/
def getMenu (db : DB) (stallId : String) : Response (List MenuItem) :=
  match castObjectId stallId with
  | some sid => ⟨200, .data (sortByName (db.menuItems.filter (fun m => m.stall_id = sid)))⟩
  | none => ⟨500, .error "Failed to fetch menu items"⟩

/-- The object literal that `POST /api/orders` builds from the destructured `req.body`:
the numbers are the doubles that `express.json()` parsed, the body's own `status` is
not among the destructured fields, and the literal carries `status: 'pending'`. -/
def orderInput (parseDate : String → Option Date) (body : OrderBody) : OrderInput :=
  { stall_id := body.stall_id
    customer_name := body.customer_name
    customer_email := body.customer_email
    customer_phone := body.customer_phone
    pickup_time := newDate parseDate body.pickup_time
    status := some "pending"
    total_amount := body.total_amount.map parseNumber
    items := body.items.map (List.map ItemBody.parse) }

/-- Route `POST /api/orders`: `new Order(...)`, `save()`, and the `catch` branch. -/
def postOrders (parseDate : String → Option Date) (db : DB) (body : OrderBody)
    (newId : ObjectId) (now : Date) : Response Created × DB :=
  match orderSchema (orderInput parseDate body) newId now with
  | some savedOrder =>
    (⟨200, .data ⟨true, savedOrder._id⟩⟩, { db with orders := db.orders ++ [savedOrder] })
  | none => (⟨500, .error "Failed to create order"⟩, db)

/-- Route `GET /api/orders/:stallId`. -/
def getOrders (db : DB) (stallId : String) : Response (List Order) :=
  match castObjectId stallId with
  | some sid => ⟨200, .data (sortByCreatedDesc (db.orders.filter (fun o => o.stall_id = sid)))⟩
  | none => ⟨500, .error "Failed to fetch orders"⟩

/-- Route `PATCH /api/orders/:orderId`. -/
def patchOrder (db : DB) (orderId : String) (status : Option String) :
    Response (Option Order) × DB :=
  match castObjectId orderId with
  | some id =>
    let r := findByIdAndUpdate db.orders id status
    (⟨200, .data r.1⟩, { db with orders := r.2 })
  | none => (⟨500, .error "Failed to update order"⟩, db)

/-- Route `GET /api/orders-detail/:orderId`. -/
def getOrderDetail (db : DB) (orderId : String) : Response (Option PopulatedOrder) :=
  match castObjectId orderId with
  | some id => ⟨200, .data ((findById Order._id db.orders id).map (populate db))⟩
  | none => ⟨500, .error "Failed to fetch order details"⟩

/-! ## Histories -/

/-- Something that happens to the store after an order was placed: a further
`POST /api/orders`, a `PATCH /api/orders/:orderId`, or an edit of the MenuItem
collection made outside the API (a re-seed, a price or name change). -/
inductive Event where
  | post (body : OrderBody) (newId : ObjectId) (now : Date)
  | patch (orderId : String) (status : Option String)
  | editMenu (menuItems : List MenuItem)

/-- The store after one event. -/
def applyEvent (parseDate : String → Option Date) (db : DB) : Event → DB
  | .post body newId now => (postOrders parseDate db body newId now).2
  | .patch orderId status => (patchOrder db orderId status).2
  | .editMenu ms => { db with menuItems := ms }

/-- The store after a sequence of events. -/
def applyEvents (parseDate : String → Option Date) (db : DB) (evs : List Event) : DB :=
  evs.foldl (applyEvent parseDate) db

/-- The submitted snapshot of a line item after parsing: quantity and price as the
doubles nearest the submitted numbers, item name as submitted. -/
def ItemBody.snapshot (b : ItemBody) : Option Number × Option Number × Option String :=
  (b.quantity.map parseNumber, b.price.map parseNumber, b.item_name)

/-- A snapshot as `res.json` prints it. -/
def printSnapshot (s : Option Number × Option Number × Option String) :
    Option ℚ × Option ℚ × Option String :=
  (s.1.bind Number.toJSON, s.2.1.bind Number.toJSON, s.2.2)

/-- The stored snapshot of a line item: quantity, price, item name. -/
def OrderItem.snapshot (i : OrderItem) : Option Number × Option Number × Option String :=
  (some i.quantity, some i.price, some i.item_name)

/-! ## Predicates used in the statements -/

/-- Two versions of one order that agree on every field except possibly `status`. -/
def Order.sameButStatus (o o' : Order) : Prop :=
  { o' with status := o.status } = o

/-- The value `r` is a correct resolution of the reference `id` against the
collection `l`: a stored document with that `_id` when `r` is a document, and no
stored document has that `_id` when `r` is null. -/
def Resolves {α : Type} (key : α → ObjectId) (l : List α) (id : ObjectId) (r : Option α) : Prop :=
  (∀ d, r = some d → d ∈ l ∧ key d = id) ∧ (r = none → ∀ d ∈ l, key d ≠ id)

/-- A populated line item `q` against the stored line item `i`: snapshot fields as
stored, reference resolved. -/
def PopulatedItem.Populates (db : DB) (i : OrderItem) (q : PopulatedItem) : Prop :=
  q.quantity = i.quantity ∧ q.price = i.price ∧ q.item_name = i.item_name ∧
    Resolves MenuItem._id db.menuItems i.menu_item_id q.menu_item_id

/-- The store holds an order with this `_id`, stall and line items. -/
def HoldsOrder (db : DB) (id sid : ObjectId) (its : List OrderItem) : Prop :=
  ∃ o ∈ db.orders, o._id = id ∧ o.stall_id = sid ∧ o.items = its

/-! ## Sample data -/

/-- A date parser that knows one instant. -/
def sampleParseDate (s : String) : Option Date :=
  if s = "2026-01-01T12:00:00Z" then some 1767268800000 else none

/-- Path form of the stall identifier `0xa1`. -/
def tacoStallId : String := "0000000000000000000000a1"

/-- Path form of the menu item identifier `0xb2`. -/
def chickenTacoId : String := "0000000000000000000000b2"

/-- Path form of the order identifier `0x07`. -/
def firstOrderId : String := "000000000000000000000007"

/-- The double 2. -/
def two : Number := .finite false 4503599627370496 (-51)

/-- The double nearest 5.99. -/
def tacoPrice : Number := .finite false 6744140441987318 (-50)

/-- The double nearest 11.98. -/
def tacoTotal : Number := .finite false 6744140441987318 (-49)

/-- The line item of the round-trip example: two Chicken Tacos at 5.99. -/
def tacoLine : ItemBody :=
  { menu_item_id := some chickenTacoId
    quantity := some ⟨false, 2, 0⟩
    price := some ⟨false, 599, -2⟩
    item_name := some "Chicken Taco" }

/-- A valid body for `POST /api/orders` that also carries `status: "completed"`. -/
def tacoBody : OrderBody :=
  { stall_id := some tacoStallId
    customer_name := some "Ann"
    customer_email := some "ann@festival.com"
    customer_phone := some "555-0100"
    pickup_time := some "2026-01-01T12:00:00Z"
    status := some "completed"
    total_amount := some ⟨false, 1198, -2⟩
    items := some [tacoLine] }

/-- The same body ordering one and a half tacos: `"quantity": 1.5`. -/
def halfTacoBody : OrderBody :=
  { tacoBody with items := some [{ tacoLine with quantity := some ⟨false, 15, -1⟩ }] }

/-- The same body ordering no taco at all: `"quantity": 0`. -/
def zeroTacoBody : OrderBody :=
  { tacoBody with items := some [{ tacoLine with quantity := some ⟨false, 0, 0⟩ }] }

/-- The same body with `"quantity": 0.99999999999999999999`, a number below 1 whose
nearest double is 1. -/
def nearlyOneTacoBody : OrderBody :=
  { tacoBody with
    items := some [{ tacoLine with quantity := some ⟨false, 99999999999999999999, -20⟩ }] }

/-- The same body with `"total_amount": -1e-400`, a number below 0 whose nearest
double is the negative zero. -/
def tinyDebtBody : OrderBody :=
  { tacoBody with total_amount := some ⟨true, 1, -400⟩ }

/-- The same body with `"price": 9007199254740993`, an integer that is no double. -/
def bigPriceBody : OrderBody :=
  { tacoBody with
    items := some [{ tacoLine with price := some ⟨false, 9007199254740993, 0⟩ }] }

/-- The empty store. -/
def emptyDB : DB := ⟨[], [], []⟩

/-- The order that `tacoBody` becomes. -/
def tacoOrder : Order :=
  { _id := ⟨7⟩
    stall_id := ⟨161⟩
    customer_name := "Ann"
    customer_email := "ann@festival.com"
    customer_phone := "555-0100"
    pickup_time := 1767268800000
    status := "pending"
    total_amount := tacoTotal
    items := [⟨⟨178⟩, two, tacoPrice, "Chicken Taco"⟩]
    created_at := 1767000000000 }

/-- Two stalls and three menu items of the seed data (prices 5.99, 6.49, 12.99 as
doubles). -/
def seededDB : DB :=
  { stalls :=
      [⟨⟨161⟩, "Tasty Tacos", "Authentic Mexican street tacos with fresh ingredients",
          "tacos@festival.com", 1766000000000⟩,
        ⟨⟨162⟩, "Pizza Paradise", "Wood-fired pizzas with gourmet toppings",
          "pizza@festival.com", 1766000000000⟩]
    menuItems :=
      [⟨⟨178⟩, ⟨161⟩, "Chicken Taco", "Grilled chicken with salsa and guacamole",
          tacoPrice, true, 1766000000000⟩,
        ⟨⟨179⟩, ⟨161⟩, "Beef Taco", "Seasoned beef with cheese and lettuce",
          .finite false 7307090395408630 (-50), true, 1766000000000⟩,
        ⟨⟨180⟩, ⟨162⟩, "Margherita Pizza", "Classic tomato, mozzarella, and basil",
          .finite false 7312719894942843 (-49), true, 1766000000000⟩]
    orders := [tacoOrder] }

/-- A later history: the Chicken Taco is renamed and repriced to 7.99, then the order
is marked ready. -/
def laterEvents : List Event :=
  [.editMenu [⟨⟨178⟩, ⟨161⟩, "Pollo Taco", "Grilled chicken with salsa and guacamole",
      .finite false 8995940255672566 (-50), true, 1766000000000⟩],
    .patch firstOrderId (some "ready")]

/-- A store holding `tacoOrder` and neither its stall nor its menu item. -/
def danglingDB : DB := ⟨[], [], [tacoOrder]⟩

end Festival

namespace Festival

/-! ## Lemmas on the schema layer -/

theorem requiredString_some {x : Option String} {s : String}
    (h : requiredString x = some s) : x = some s ∧ s ≠ "" := by
  cases x with
  | none => simp [requiredString] at h
  | some t =>
    by_cases ht : t = ""
    · simp [requiredString, ht] at h
    · simp [requiredString, ht] at h
      subst h
      exact ⟨rfl, ht⟩

theorem requiredMin_some {m : ℚ} {x : Option Number} {q : Number}
    (h : requiredMin m x = some q) : x = some q ∧ q.ge m = true := by
  cases x with
  | none => simp [requiredMin] at h
  | some t =>
    by_cases ht : t.ge m = true
    · simp [requiredMin, ht] at h
      subst h
      exact ⟨rfl, ht⟩
    · simp [requiredMin, ht] at h

theorem requiredObjectId_some {x : Option String} {i : ObjectId}
    (h : requiredObjectId x = some i) : ∃ s, x = some s ∧ castObjectId s = some i := by
  cases x with
  | none => simp [requiredObjectId] at h
  | some t => exact ⟨t, rfl, h⟩

/-- What a validated line item says about the parsed one. -/
theorem orderItemSchema_some {b : ItemInput} {i : OrderItem}
    (h : orderItemSchema b = some i) :
    requiredObjectId b.menu_item_id = some i.menu_item_id ∧
      b.quantity = some i.quantity ∧ i.quantity.ge 1 = true ∧
      b.price = some i.price ∧ i.price.ge 0 = true ∧
      b.item_name = some i.item_name ∧ i.item_name ≠ "" := by
  unfold orderItemSchema at h
  split at h
  · rename_i m q p n hm hq hp hn
    simp only [Option.some.injEq] at h
    subst h
    obtain ⟨hq1, hq2⟩ := requiredMin_some hq
    obtain ⟨hp1, hp2⟩ := requiredMin_some hp
    obtain ⟨hn1, hn2⟩ := requiredString_some hn
    exact ⟨hm, hq1, hq2, hp1, hp2, hn1, hn2⟩
  · simp at h

theorem itemsSchema_cons_some {b : ItemInput} {bs : List ItemInput} {l : List OrderItem}
    (h : itemsSchema (b :: bs) = some l) :
    ∃ i is, l = i :: is ∧ orderItemSchema b = some i ∧ itemsSchema bs = some is := by
  unfold itemsSchema at h
  split at h
  · rename_i i is hi his
    simp only [Option.some.injEq] at h
    exact ⟨i, is, h.symm, hi, his⟩
  · simp at h

/-- Validated line items pair off with the parsed ones, in order. -/
theorem itemsSchema_forall₂ : ∀ {bs : List ItemInput} {l : List OrderItem},
    itemsSchema bs = some l → List.Forall₂ (fun b i => orderItemSchema b = some i) bs l
  | [], l, h => by
    simp [itemsSchema] at h
    subst h
    exact List.Forall₂.nil
  | b :: bs, l, h => by
    obtain ⟨i, is, rfl, hi, his⟩ := itemsSchema_cons_some h
    exact List.Forall₂.cons hi (itemsSchema_forall₂ his)

/-- Every element on the right of a pairing has a partner on the left. -/
theorem forall₂_mem_right {α β : Type} {R : α → β → Prop} :
    ∀ {l₁ : List α} {l₂ : List β}, List.Forall₂ R l₁ l₂ → ∀ {y : β}, y ∈ l₂ →
      ∃ x ∈ l₁, R x y
  | _, _, List.Forall₂.nil, y, hy => by simp at hy
  | _, _, List.Forall₂.cons (a := a) h t, y, hy => by
    rcases List.mem_cons.1 hy with rfl | hmem
    · exact ⟨a, List.mem_cons_self _ _, h⟩
    · obtain ⟨x, hx, hr⟩ := forall₂_mem_right t hmem
      exact ⟨x, List.mem_cons_of_mem _ hx, hr⟩

/-- One rejected line item rejects the whole list. -/
theorem itemsSchema_none_of_mem : ∀ {bs : List ItemInput} {b : ItemInput},
    b ∈ bs → orderItemSchema b = none → itemsSchema bs = none
  | [], _, hb, _ => by simp at hb
  | c :: cs, b, hb, hnone => by
    rcases List.mem_cons.1 hb with rfl | hmem
    · simp [itemsSchema, hnone]
    · have ih := itemsSchema_none_of_mem hmem hnone
      unfold itemsSchema
      rw [ih]
      cases orderItemSchema c <;> rfl

/-- What a validated order says about the input of `new Order`. -/
theorem orderSchema_some {inp : OrderInput} {newId : ObjectId} {now : Date} {o : Order}
    (h : orderSchema inp newId now = some o) :
    o._id = newId ∧ o.created_at = now ∧
      requiredObjectId inp.stall_id = some o.stall_id ∧
      requiredString inp.customer_name = some o.customer_name ∧
      requiredString inp.customer_email = some o.customer_email ∧
      requiredString inp.customer_phone = some o.customer_phone ∧
      inp.pickup_time = some o.pickup_time ∧
      statusSchema inp.status = some o.status ∧
      requiredMin 0 inp.total_amount = some o.total_amount ∧
      itemsSchema (inp.items.getD []) = some o.items := by
  unfold orderSchema at h
  split at h
  · rename_i sid cn ce cp pt st ta its h1 h2 h3 h4 h5 h6 h7 h8
    simp only [Option.some.injEq] at h
    subst h
    exact ⟨rfl, rfl, h1, h2, h3, h4, h5, h6, h7, h8⟩
  · simp at h

/-- The parsed `items` of a body. -/
theorem orderInput_items (parseDate : String → Option Date) (body : OrderBody) :
    (orderInput parseDate body).items.getD [] =
      (body.items.getD []).map ItemBody.parse := by
  cases h : body.items <;> simp [orderInput, h]

theorem postOrders_eq (parseDate : String → Option Date) (db : DB) (body : OrderBody)
    (newId : ObjectId) (now : Date) :
    postOrders parseDate db body newId now =
      match orderSchema (orderInput parseDate body) newId now with
      | some savedOrder =>
        (⟨200, .data ⟨true, savedOrder._id⟩⟩, { db with orders := db.orders ++ [savedOrder] })
      | none => (⟨500, .error "Failed to create order"⟩, db) := rfl

/-- A rejected document: status 500, the fixed message, the store untouched. -/
theorem postOrders_of_none {parseDate : String → Option Date} {db : DB} {body : OrderBody}
    {newId : ObjectId} {now : Date}
    (h : orderSchema (orderInput parseDate body) newId now = none) :
    postOrders parseDate db body newId now = (⟨500, .error "Failed to create order"⟩, db) := by
  rw [postOrders_eq, h]

/-- An accepted document: status 200 and the document appended. -/
theorem postOrders_of_some {parseDate : String → Option Date} {db : DB} {body : OrderBody}
    {newId : ObjectId} {now : Date} {o : Order}
    (h : orderSchema (orderInput parseDate body) newId now = some o) :
    postOrders parseDate db body newId now =
      (⟨200, .data ⟨true, newId⟩⟩, { db with orders := db.orders ++ [o] }) := by
  rw [postOrders_eq, h]
  simp [(orderSchema_some h).1]

/-- A successful `POST /api/orders` appended exactly the validated document. -/
theorem postOrders_of_ok {parseDate : String → Option Date} {db : DB} {body : OrderBody}
    {newId : ObjectId} {now : Date}
    (h : (postOrders parseDate db body newId now).1.status = 200) :
    ∃ o, orderSchema (orderInput parseDate body) newId now = some o ∧
      postOrders parseDate db body newId now =
        (⟨200, .data ⟨true, newId⟩⟩, { db with orders := db.orders ++ [o] }) := by
  cases ho : orderSchema (orderInput parseDate body) newId now with
  | none => rw [postOrders_of_none ho] at h; simp at h
  | some o => exact ⟨o, rfl, postOrders_of_some ho⟩

/-! ## Sample evaluations -/

theorem parse_two : parseNumber ⟨false, 2, 0⟩ = two := by decide

theorem parse_tacoPrice : parseNumber ⟨false, 599, -2⟩ = tacoPrice := by decide

theorem parse_tacoTotal : parseNumber ⟨false, 1198, -2⟩ = tacoTotal := by decide

theorem parse_half : parseNumber ⟨false, 15, -1⟩ = .finite false 6755399441055744 (-52) := by
  decide

theorem parse_zero : parseNumber ⟨false, 0, 0⟩ = .finite false 0 (-1074) := by decide

theorem parse_nearlyOne :
    parseNumber ⟨false, 99999999999999999999, -20⟩ = .finite false 4503599627370496 (-52) := by
  decide

set_option exponentiation.threshold 2000 in
set_option maxRecDepth 100000 in
theorem parse_tinyDebt : parseNumber ⟨true, 1, -400⟩ = .finite true 0 (-1074) := by decide

theorem parse_bigPrice :
    parseNumber ⟨false, 9007199254740993, 0⟩ = .finite false 4503599627370496 1 := by decide

theorem cast_tacoStall : castObjectId "0000000000000000000000a1" = some ⟨161⟩ := by decide

theorem cast_chickenTaco : castObjectId "0000000000000000000000b2" = some ⟨178⟩ := by decide

theorem tacoTotal_ge : tacoTotal.ge 0 = true := by norm_num [tacoTotal, Number.ge]

theorem tacoPrice_ge : tacoPrice.ge 0 = true := by norm_num [tacoPrice, Number.ge]

theorem two_ge : two.ge 1 = true := by norm_num [two, Number.ge]

theorem tacoBody_saved :
    orderSchema (orderInput sampleParseDate tacoBody) ⟨7⟩ 1767000000000 = some tacoOrder := by
  simp [orderSchema, orderInput, tacoBody, tacoLine, tacoOrder, newDate, sampleParseDate,
    requiredObjectId, requiredString, requiredMin, statusSchema, statusEnum, itemsSchema,
    orderItemSchema, ItemBody.parse, tacoStallId, chickenTacoId, cast_tacoStall,
    cast_chickenTaco, parse_two, parse_tacoPrice, parse_tacoTotal, tacoTotal_ge, tacoPrice_ge,
    two_ge]

theorem halfTacoBody_saved :
    orderSchema (orderInput sampleParseDate halfTacoBody) ⟨7⟩ 1767000000000 =
      some { tacoOrder with
        items := [⟨⟨178⟩, .finite false 6755399441055744 (-52), tacoPrice, "Chicken Taco"⟩] } := by
  have h : (Number.finite false 6755399441055744 (-52)).ge 1 = true := by
    norm_num [Number.ge]
  simp [orderSchema, orderInput, halfTacoBody, tacoBody, tacoLine, tacoOrder, newDate,
    sampleParseDate, requiredObjectId, requiredString, requiredMin, statusSchema, statusEnum,
    itemsSchema, orderItemSchema, ItemBody.parse, tacoStallId, chickenTacoId, cast_tacoStall,
    cast_chickenTaco, parse_half, parse_tacoPrice, parse_tacoTotal, tacoTotal_ge, tacoPrice_ge,
    h]

theorem nearlyOneTacoBody_saved :
    orderSchema (orderInput sampleParseDate nearlyOneTacoBody) ⟨7⟩ 1767000000000 =
      some { tacoOrder with
        items := [⟨⟨178⟩, .finite false 4503599627370496 (-52), tacoPrice, "Chicken Taco"⟩] } := by
  have h : (Number.finite false 4503599627370496 (-52)).ge 1 = true := by
    norm_num [Number.ge]
  simp [orderSchema, orderInput, nearlyOneTacoBody, tacoBody, tacoLine, tacoOrder, newDate,
    sampleParseDate, requiredObjectId, requiredString, requiredMin, statusSchema, statusEnum,
    itemsSchema, orderItemSchema, ItemBody.parse, tacoStallId, chickenTacoId, cast_tacoStall,
    cast_chickenTaco, parse_nearlyOne, parse_tacoPrice, parse_tacoTotal, tacoTotal_ge,
    tacoPrice_ge, h]

theorem tinyDebtBody_saved :
    orderSchema (orderInput sampleParseDate tinyDebtBody) ⟨7⟩ 1767000000000 =
      some { tacoOrder with total_amount := .finite true 0 (-1074) } := by
  have h : (Number.finite true 0 (-1074)).ge 0 = true := by
    norm_num [Number.ge]
  simp [orderSchema, orderInput, tinyDebtBody, tacoBody, tacoLine, tacoOrder, newDate,
    sampleParseDate, requiredObjectId, requiredString, requiredMin, statusSchema, statusEnum,
    itemsSchema, orderItemSchema, ItemBody.parse, tacoStallId, chickenTacoId, cast_tacoStall,
    cast_chickenTaco, parse_two, parse_tacoPrice, parse_tinyDebt, two_ge, tacoPrice_ge, h]

theorem bigPriceBody_saved :
    orderSchema (orderInput sampleParseDate bigPriceBody) ⟨7⟩ 1767000000000 =
      some { tacoOrder with
        items := [⟨⟨178⟩, two, .finite false 4503599627370496 1, "Chicken Taco"⟩] } := by
  have h : (Number.finite false 4503599627370496 1).ge 0 = true := by
    norm_num [Number.ge]
  simp [orderSchema, orderInput, bigPriceBody, tacoBody, tacoLine, tacoOrder, newDate,
    sampleParseDate, requiredObjectId, requiredString, requiredMin, statusSchema, statusEnum,
    itemsSchema, orderItemSchema, ItemBody.parse, tacoStallId, chickenTacoId, cast_tacoStall,
    cast_chickenTaco, parse_two, parse_bigPrice, parse_tacoTotal, tacoTotal_ge, two_ge, h]

/-! ## Creating orders -/

/-- C1: a body of `POST /api/orders` whose document passes schema validation is
persisted as one new order with status exactly "pending", and the outcome does not
depend on the `status` field the body carries. -/
theorem post_status_forced_pending (parseDate : String → Option Date) (db : DB)
    (body : OrderBody) (newId : ObjectId) (now : Date)
    (hvalid : (orderSchema (orderInput parseDate body) newId now).isSome = true) :
    (∃ o, postOrders parseDate db body newId now =
        (⟨200, .data ⟨true, newId⟩⟩, { db with orders := db.orders ++ [o] }) ∧
        o._id = newId ∧ o.status = "pending") ∧
      ∀ s, postOrders parseDate db { body with status := s } newId now =
        postOrders parseDate db body newId now := by
  refine ⟨?_, fun s => rfl⟩
  obtain ⟨o, ho⟩ := Option.isSome_iff_exists.1 hvalid
  have hf := orderSchema_some ho
  refine ⟨o, ?_, hf.1, ?_⟩
  · rw [postOrders_eq, ho]
    simp [hf.1]
  · have hst := hf.2.2.2.2.2.2.2.1
    simp [orderInput, statusSchema, statusEnum] at hst
    exact hst.symm

/-- C1 at the body carrying `status: "completed"`. -/
theorem post_status_forced_pending_witness :
    (orderSchema (orderInput sampleParseDate tacoBody) ⟨7⟩ 1767000000000).isSome = true ∧
    ((∃ o, postOrders sampleParseDate emptyDB tacoBody ⟨7⟩ 1767000000000 =
        (⟨200, .data ⟨true, ⟨7⟩⟩⟩, { emptyDB with orders := emptyDB.orders ++ [o] }) ∧
        o._id = ⟨7⟩ ∧ o.status = "pending") ∧
      ∀ s, postOrders sampleParseDate emptyDB { tacoBody with status := s } ⟨7⟩ 1767000000000 =
        postOrders sampleParseDate emptyDB tacoBody ⟨7⟩ 1767000000000) :=
  ⟨by rw [tacoBody_saved]; rfl,
   post_status_forced_pending sampleParseDate emptyDB tacoBody ⟨7⟩ 1767000000000
     (by rw [tacoBody_saved]; rfl)⟩

/-- A rejected `items` path rejects the document. -/
theorem orderSchema_none_of_items {parseDate : String → Option Date} {body : OrderBody}
    {newId : ObjectId} {now : Date}
    (h : itemsSchema ((body.items.getD []).map ItemBody.parse) = none) :
    orderSchema (orderInput parseDate body) newId now = none := by
  cases ho : orderSchema (orderInput parseDate body) newId now with
  | none => rfl
  | some o =>
    have hits := (orderSchema_some ho).2.2.2.2.2.2.2.2.2
    rw [orderInput_items, h] at hits
    simp at hits

/-- A parsed line item that lacks a required field or is below a minimum does not
validate. -/
theorem orderItemSchema_none_of_violation {b : ItemInput}
    (h : b.menu_item_id = none ∨ b.quantity = none ∨ b.price = none ∨ b.item_name = none ∨
      (∃ q, b.quantity = some q ∧ q.ge 1 = false) ∨ (∃ p, b.price = some p ∧ p.ge 0 = false)) :
    orderItemSchema b = none := by
  cases hb : orderItemSchema b with
  | none => rfl
  | some i =>
    exfalso
    obtain ⟨hm, hq, hq1, hp, hp0, hn, _⟩ := orderItemSchema_some hb
    rcases h with h | h | h | h | ⟨q, h, hlt⟩ | ⟨p, h, hlt⟩
    · rw [h] at hm; simp [requiredObjectId] at hm
    · rw [h] at hq; simp at hq
    · rw [h] at hp; simp at hp
    · rw [h] at hn; simp at hn
    · rw [h] at hq
      simp only [Option.some.injEq] at hq
      subst hq
      rw [hq1] at hlt
      simp at hlt
    · rw [h] at hp
      simp only [Option.some.injEq] at hp
      subst hp
      rw [hp0] at hlt
      simp at hlt

/-- The same for a line item as sent, its numbers read after parsing. -/
theorem parse_none_of_violation {b : ItemBody}
    (h : b.menu_item_id = none ∨ b.quantity = none ∨ b.price = none ∨ b.item_name = none ∨
      (∃ q, b.quantity = some q ∧ (parseNumber q).ge 1 = false) ∨
      (∃ p, b.price = some p ∧ (parseNumber p).ge 0 = false)) :
    orderItemSchema b.parse = none := by
  apply orderItemSchema_none_of_violation
  rcases h with h | h | h | h | ⟨q, h, hlt⟩ | ⟨p, h, hlt⟩
  · exact Or.inl h
  · exact Or.inr (Or.inl (by simp [ItemBody.parse, h]))
  · exact Or.inr (Or.inr (Or.inl (by simp [ItemBody.parse, h])))
  · exact Or.inr (Or.inr (Or.inr (Or.inl h)))
  · exact Or.inr (Or.inr (Or.inr (Or.inr (Or.inl ⟨_, by simp [ItemBody.parse, h], hlt⟩))))
  · exact Or.inr (Or.inr (Or.inr (Or.inr (Or.inr ⟨_, by simp [ItemBody.parse, h], hlt⟩))))

/-- C7, as stated, fails: the body with `"total_amount": -1e-400` has a total_amount
below 0, yet its nearest double is the negative zero, which passes `min: 0`; the
route answers 200 and persists the order. -/
theorem post_accepts_tiny_negative_total :
    (∃ t, tinyDebtBody.total_amount = some t ∧ t.value < 0) ∧
      postOrders sampleParseDate emptyDB tinyDebtBody ⟨7⟩ 1767000000000 =
        (⟨200, .data ⟨true, ⟨7⟩⟩⟩,
          { emptyDB with orders := [{ tacoOrder with total_amount := .finite true 0 (-1074) }] }) := by
  refine ⟨⟨_, rfl, ?_⟩, ?_⟩
  · norm_num [JsonNumber.value]
  · rw [postOrders_of_some tinyDebtBody_saved]
    rfl

/-- C7 (amended): a body of `POST /api/orders` that leaves out `stall_id`,
`customer_name`, `customer_email`, `customer_phone`, `pickup_time` or `total_amount`,
or whose `total_amount`, parsed to a double, is below 0, or that has a line item
without `menu_item_id`, `quantity`, `price` or `item_name`, or whose `quantity`,
parsed to a double, is below 1 or whose `price`, parsed to a double, is below 0, is
answered with status 500 and body `{error: 'Failed to create order'}`, and the store
is unchanged. -/
theorem post_rejects_schema_violation (parseDate : String → Option Date) (db : DB)
    (body : OrderBody) (newId : ObjectId) (now : Date)
    (h : body.stall_id = none ∨ body.customer_name = none ∨ body.customer_email = none ∨
      body.customer_phone = none ∨ body.pickup_time = none ∨ body.total_amount = none ∨
      (∃ t, body.total_amount = some t ∧ (parseNumber t).ge 0 = false) ∨
      (∃ L b, body.items = some L ∧ b ∈ L ∧
        (b.menu_item_id = none ∨ b.quantity = none ∨ b.price = none ∨ b.item_name = none ∨
          (∃ q, b.quantity = some q ∧ (parseNumber q).ge 1 = false) ∨
          (∃ p, b.price = some p ∧ (parseNumber p).ge 0 = false)))) :
    postOrders parseDate db body newId now = (⟨500, .error "Failed to create order"⟩, db) := by
  apply postOrders_of_none
  cases ho : orderSchema (orderInput parseDate body) newId now with
  | none => rfl
  | some o =>
    exfalso
    obtain ⟨_, _, hs, hcn, hce, hcp, hpt, _, hta, hits⟩ := orderSchema_some ho
    rw [orderInput_items] at hits
    simp only [orderInput] at hs hcn hce hcp hpt hta
    rcases h with h | h | h | h | h | h | ⟨t, h, hlt⟩ | ⟨L, b, hL, hb, hviol⟩
    · rw [h] at hs; simp [requiredObjectId] at hs
    · rw [h] at hcn; simp [requiredString] at hcn
    · rw [h] at hce; simp [requiredString] at hce
    · rw [h] at hcp; simp [requiredString] at hcp
    · rw [h] at hpt; simp [newDate] at hpt
    · rw [h] at hta; simp [requiredMin] at hta
    · rw [h] at hta
      obtain ⟨he, hle⟩ := requiredMin_some hta
      simp only [Option.map_some', Option.some.injEq] at he
      rw [← he, hlt] at hle
      simp at hle
    · rw [hL] at hits
      have hnone := itemsSchema_none_of_mem (List.mem_map_of_mem ItemBody.parse hb)
        (parse_none_of_violation hviol)
      simp only [Option.getD_some] at hits
      rw [hnone] at hits
      simp at hits

/-- C7 (amended) at a body whose only line item has quantity 0. -/
theorem post_rejects_schema_violation_witness :
    (∃ L b, zeroTacoBody.items = some L ∧ b ∈ L ∧
        ∃ q, b.quantity = some q ∧ (parseNumber q).ge 1 = false) ∧
      postOrders sampleParseDate danglingDB zeroTacoBody ⟨8⟩ 1767000000001 =
        (⟨500, .error "Failed to create order"⟩, danglingDB) :=
  have hz : (parseNumber ⟨false, 0, 0⟩).ge 1 = false := by
    rw [parse_zero]
    norm_num [Number.ge]
  ⟨⟨_, _, rfl, List.mem_singleton.2 rfl, _, rfl, hz⟩,
   post_rejects_schema_violation sampleParseDate danglingDB zeroTacoBody ⟨8⟩ 1767000000001
     (Or.inr (Or.inr (Or.inr (Or.inr (Or.inr (Or.inr (Or.inr
       ⟨_, _, rfl, List.mem_singleton.2 rfl,
         Or.inr (Or.inr (Or.inr (Or.inr (Or.inl ⟨_, rfl, hz⟩))))⟩)))))))⟩

/-- C8, as stated, fails: a line item with `"quantity": 1.5` validates, the route
answers 200 and the order is persisted with the quantity 1.5, which is no integer;
and a line item with `"quantity": 0.99999999999999999999`, a number below 1,
validates as well, because its nearest double is 1. -/
theorem post_accepts_fractional_quantity :
    (∃ o, postOrders sampleParseDate emptyDB halfTacoBody ⟨7⟩ 1767000000000 =
        (⟨200, .data ⟨true, ⟨7⟩⟩⟩, { emptyDB with orders := [o] }) ∧
      ∃ i ∈ o.items, i.quantity.toJSON = some (3 / 2) ∧ ∀ n : ℤ, (3 / 2 : ℚ) ≠ (n : ℚ)) ∧
    (∃ o, postOrders sampleParseDate emptyDB nearlyOneTacoBody ⟨7⟩ 1767000000000 =
        (⟨200, .data ⟨true, ⟨7⟩⟩⟩, { emptyDB with orders := [o] }) ∧
      (∃ i ∈ o.items, i.quantity.toJSON = some 1) ∧
      ∃ L b q, nearlyOneTacoBody.items = some L ∧ b ∈ L ∧ b.quantity = some q ∧
        q.value < 1) := by
  refine ⟨⟨{ tacoOrder with
        items := [⟨⟨178⟩, .finite false 6755399441055744 (-52), tacoPrice, "Chicken Taco"⟩] },
      ?_, ?_⟩,
    ⟨{ tacoOrder with
        items := [⟨⟨178⟩, .finite false 4503599627370496 (-52), tacoPrice, "Chicken Taco"⟩] },
      ?_, ?_, ?_⟩⟩
  · rw [postOrders_of_some halfTacoBody_saved]
    rfl
  · refine ⟨⟨⟨178⟩, .finite false 6755399441055744 (-52), tacoPrice, "Chicken Taco"⟩,
      List.mem_singleton.2 rfl, ?_, ?_⟩
    · norm_num [Number.toJSON]
    · intro n hn
      have h2 : (3 : ℚ) = 2 * (n : ℚ) := by linarith
      have h3 : (3 : ℤ) = 2 * n := by exact_mod_cast h2
      omega
  · rw [postOrders_of_some nearlyOneTacoBody_saved]
    rfl
  · refine ⟨⟨⟨178⟩, .finite false 4503599627370496 (-52), tacoPrice, "Chicken Taco"⟩,
      List.mem_singleton.2 rfl, ?_⟩
    norm_num [Number.toJSON]
  · refine ⟨_, _, _, rfl, List.mem_singleton.2 rfl, rfl, ?_⟩
    norm_num [JsonNumber.value]

/-- C8 (amended): `POST /api/orders` either answers 500 and leaves the store unchanged,
or persists one order all of whose line items have a quantity, a double, of at least
1 (not necessarily an integer); and a body with a line item whose quantity, parsed
to a double, is below 1 is answered 500 with the store unchanged. -/
theorem post_quantity_at_least_one (parseDate : String → Option Date) (db : DB)
    (body : OrderBody) (newId : ObjectId) (now : Date) :
    (postOrders parseDate db body newId now = (⟨500, .error "Failed to create order"⟩, db) ∨
      ∃ o, postOrders parseDate db body newId now =
          (⟨200, .data ⟨true, newId⟩⟩, { db with orders := db.orders ++ [o] }) ∧
        ∀ i ∈ o.items, i.quantity.ge 1 = true) ∧
    (∀ L b q, body.items = some L → b ∈ L → b.quantity = some q →
      (parseNumber q).ge 1 = false →
      postOrders parseDate db body newId now =
        (⟨500, .error "Failed to create order"⟩, db)) := by
  constructor
  · cases ho : orderSchema (orderInput parseDate body) newId now with
    | none => exact Or.inl (postOrders_of_none ho)
    | some o =>
      right
      have hf := orderSchema_some ho
      refine ⟨o, postOrders_of_some ho, ?_⟩
      have hits := itemsSchema_forall₂ hf.2.2.2.2.2.2.2.2.2
      intro i hi
      obtain ⟨b, _, hb⟩ := forall₂_mem_right hits hi
      exact (orderItemSchema_some hb).2.2.1
  · intro L b q hL hb hq hlt
    apply postOrders_of_none
    apply orderSchema_none_of_items
    rw [hL]
    exact itemsSchema_none_of_mem (List.mem_map_of_mem ItemBody.parse hb)
      (parse_none_of_violation
        (Or.inr (Or.inr (Or.inr (Or.inr (Or.inl ⟨q, hq, hlt⟩))))))

/-- C8 (amended) at a body whose only line item has quantity 0: it is rejected. -/
theorem post_quantity_at_least_one_witness :
    postOrders sampleParseDate danglingDB zeroTacoBody ⟨8⟩ 1767000000001 =
      (⟨500, .error "Failed to create order"⟩, danglingDB) :=
  (post_quantity_at_least_one sampleParseDate danglingDB zeroTacoBody ⟨8⟩ 1767000000001).2
    _ _ _ rfl (List.mem_singleton.2 rfl) rfl
    (by rw [parse_zero]; norm_num [Number.ge])

/-! ## Listing routes -/

/-- The sort `{ name: 1 }` permutes its input and leaves it ascending by name. -/
theorem sortByName_spec (l : List MenuItem) :
    (sortByName l).Perm l ∧ (sortByName l).Sorted (fun a b => a.name ≤ b.name) := by
  haveI : IsTotal MenuItem (fun a b => a.name ≤ b.name) := ⟨fun a b => le_total a.name b.name⟩
  haveI : IsTrans MenuItem (fun a b => a.name ≤ b.name) :=
    ⟨fun _ _ _ hab hbc => le_trans hab hbc⟩
  exact ⟨List.perm_insertionSort _ l, List.sorted_insertionSort _ l⟩

/-- The sort `{ created_at: -1 }` permutes its input and leaves it newest first. -/
theorem sortByCreatedDesc_spec (l : List Order) :
    (sortByCreatedDesc l).Perm l ∧
      (sortByCreatedDesc l).Sorted (fun a b => b.created_at ≤ a.created_at) := by
  haveI : IsTotal Order (fun a b => b.created_at ≤ a.created_at) :=
    ⟨fun a b => le_total b.created_at a.created_at⟩
  haveI : IsTrans Order (fun a b => b.created_at ≤ a.created_at) :=
    ⟨fun _ _ _ hab hbc => le_trans hbc hab⟩
  exact ⟨List.perm_insertionSort _ l, List.sorted_insertionSort _ l⟩

/-- C4: for a stall identifier S (the path parameter being its 24-digit form),
`GET /api/menu/S` answers 200 with a list that is a rearrangement of exactly the
stored MenuItems whose `stall_id` is S (each as often as it is stored, none of
another stall) and that is ascending by name. -/
theorem getMenu_exact_sorted (db : DB) (stallId : String) (S : ObjectId)
    (hS : castObjectId stallId = some S) :
    ∃ l, getMenu db stallId = ⟨200, .data l⟩ ∧
      l.Perm (db.menuItems.filter (fun m => m.stall_id = S)) ∧
      (∀ m, m ∈ l ↔ m ∈ db.menuItems ∧ m.stall_id = S) ∧
      (∀ m, l.count m = if m.stall_id = S then db.menuItems.count m else 0) ∧
      l.Sorted (fun a b => a.name ≤ b.name) := by
  obtain ⟨hperm, hsorted⟩ := sortByName_spec (db.menuItems.filter (fun m => m.stall_id = S))
  refine ⟨_, ?_, hperm, ?_, ?_, hsorted⟩
  · simp [getMenu, hS]
  · intro m
    rw [hperm.mem_iff]
    simp [List.mem_filter]
  · intro m
    rw [hperm.count_eq]
    by_cases hm : m.stall_id = S
    · rw [if_pos hm]
      exact List.count_filter (by simpa using hm)
    · rw [if_neg hm]
      exact List.count_eq_zero_of_not_mem (by simp [List.mem_filter, hm])

/-- C5: for a stall identifier S (the path parameter being its 24-digit form),
`GET /api/orders/S` answers 200 with a list that is a rearrangement of exactly the
stored orders whose `stall_id` is S and in which every order is at least as new
as every order after it, in particular as the next one. -/
theorem getOrders_exact_newest_first (db : DB) (stallId : String) (S : ObjectId)
    (hS : castObjectId stallId = some S) :
    ∃ l, getOrders db stallId = ⟨200, .data l⟩ ∧
      l.Perm (db.orders.filter (fun o => o.stall_id = S)) ∧
      (∀ o, o ∈ l ↔ o ∈ db.orders ∧ o.stall_id = S) ∧
      l.Sorted (fun a b => b.created_at ≤ a.created_at) ∧
      l.Chain' (fun a b => b.created_at ≤ a.created_at) := by
  obtain ⟨hperm, hsorted⟩ :=
    sortByCreatedDesc_spec (db.orders.filter (fun o => o.stall_id = S))
  refine ⟨_, ?_, hperm, ?_, hsorted, hsorted.chain'⟩
  · simp [getOrders, hS]
  · intro o
    rw [hperm.mem_iff]
    simp [List.mem_filter]

/-- C4 at the seeded store and the taco stall. -/
theorem getMenu_exact_sorted_witness :
    castObjectId tacoStallId = some ⟨161⟩ ∧
    ∃ l, getMenu seededDB tacoStallId = ⟨200, .data l⟩ ∧
      l.Perm (seededDB.menuItems.filter (fun m => m.stall_id = ⟨161⟩)) ∧
      (∀ m, m ∈ l ↔ m ∈ seededDB.menuItems ∧ m.stall_id = ⟨161⟩) ∧
      (∀ m, l.count m = if m.stall_id = ⟨161⟩ then seededDB.menuItems.count m else 0) ∧
      l.Sorted (fun a b => a.name ≤ b.name) :=
  ⟨by decide, getMenu_exact_sorted seededDB tacoStallId ⟨161⟩ (by decide)⟩

/-- C5 at the seeded store and the taco stall. -/
theorem getOrders_exact_newest_first_witness :
    castObjectId tacoStallId = some ⟨161⟩ ∧
    ∃ l, getOrders seededDB tacoStallId = ⟨200, .data l⟩ ∧
      l.Perm (seededDB.orders.filter (fun o => o.stall_id = ⟨161⟩)) ∧
      (∀ o, o ∈ l ↔ o ∈ seededDB.orders ∧ o.stall_id = ⟨161⟩) ∧
      l.Sorted (fun a b => b.created_at ≤ a.created_at) ∧
      l.Chain' (fun a b => b.created_at ≤ a.created_at) :=
  ⟨by decide, getOrders_exact_newest_first seededDB tacoStallId ⟨161⟩ (by decide)⟩

/-! ## Store lemmas -/

theorem findById_resolves {α : Type} (key : α → ObjectId) (l : List α) (id : ObjectId) :
    Resolves key l id (findById key l id) := by
  constructor
  · intro d hd
    refine ⟨List.mem_of_find?_eq_some hd, ?_⟩
    have := List.find?_some hd
    simpa using this
  · intro hnone d hd
    have := List.find?_eq_none.1 hnone d hd
    simpa using this

theorem findById_eq_none {α : Type} (key : α → ObjectId) {l : List α} {id : ObjectId}
    (h : ∀ d ∈ l, key d ≠ id) : findById key l id = none := by
  unfold findById
  rw [List.find?_eq_none]
  intro d hd
  simpa using h d hd

theorem setStatus_id (st : Option String) (o : Order) : (setStatus st o)._id = o._id := by
  cases st <;> rfl

theorem setStatus_sameButStatus (st : Option String) (o : Order) :
    o.sameButStatus (setStatus st o) := by
  cases st <;> rfl

/-- Without a document of that `_id` the update changes nothing. -/
theorem updateById_of_absent {id : ObjectId} (st : Option String) :
    ∀ {l : List Order}, (∀ o ∈ l, o._id ≠ id) → updateById id st l = l
  | [], _ => rfl
  | o :: os, h => by
    have ho : o._id ≠ id := h o (List.mem_cons_self _ _)
    have ih := updateById_of_absent st (fun x hx => h x (List.mem_cons_of_mem _ hx))
    simp [updateById, ho, ih]

/-- After the update, the document found under `id` is the updated one. -/
theorem findById_updateById {id : ObjectId} (st : Option String) :
    ∀ {l : List Order} {o : Order}, findById Order._id l id = some o →
      findById Order._id (updateById id st l) id = some (setStatus st o)
  | [], _, h => by simp [findById] at h
  | x :: xs, o, h => by
    by_cases hx : x._id = id
    · have : o = x := by
        simp [findById, List.find?, hx] at h
        exact h.symm
      subst this
      simp [updateById, hx, findById, List.find?, setStatus_id]
    · have h2 : findById Order._id xs id = some o := by
        simpa [findById, List.find?, hx] using h
      have ih := findById_updateById st h2
      simpa [updateById, hx, findById, List.find?] using ih

/-- The update touches at most the `status` of documents with the given `_id`. -/
theorem updateById_frame (id : ObjectId) (st : Option String) :
    ∀ l : List Order,
      List.Forall₂ (fun o o' => o.sameButStatus o' ∧ (o._id ≠ id → o' = o)) l (updateById id st l)
  | [] => List.Forall₂.nil
  | x :: xs => by
    have hrefl : List.Forall₂ (fun o o' : Order => o.sameButStatus o' ∧ (o._id ≠ id → o' = o))
        xs xs := by
      apply List.forall₂_same.2
      intro o _
      exact ⟨rfl, fun _ => rfl⟩
    by_cases hx : x._id = id
    · simp only [updateById, hx, if_true]
      exact List.Forall₂.cons ⟨setStatus_sameButStatus st x, fun h => absurd hx h⟩ hrefl
    · simp only [updateById, hx, if_false]
      exact List.Forall₂.cons ⟨rfl, fun _ => rfl⟩ (updateById_frame id st xs)

/-! ## Updating the status -/

theorem patchOrder_of_cast {db : DB} {orderId : String} {id : ObjectId}
    (hid : castObjectId orderId = some id) (st : Option String) :
    patchOrder db orderId st =
      (⟨200, .data ((findById Order._id db.orders id).map (setStatus st))⟩,
        { db with orders := updateById id st db.orders }) := by
  simp [patchOrder, hid, findByIdAndUpdate]

theorem patchOrder_of_malformed {db : DB} {orderId : String}
    (hid : castObjectId orderId = none) (st : Option String) :
    patchOrder db orderId st = (⟨500, .error "Failed to update order"⟩, db) := by
  simp [patchOrder, hid]

/-- C2: for an order stored under the identifier that the path parameter denotes and
any string s, in the enumeration or not, `PATCH /api/orders/:orderId` with body
`{status: s}` answers 200 with the order carrying status s (every other field as
before), and the order stored under that identifier afterwards is that same
document, with status s. -/
theorem patch_stores_any_status (db : DB) (orderId : String) (id : ObjectId) (o : Order)
    (s : String) (hid : castObjectId orderId = some id)
    (ho : findById Order._id db.orders id = some o) :
    (patchOrder db orderId (some s)).1 = ⟨200, .data (some { o with status := s })⟩ ∧
      findById Order._id (patchOrder db orderId (some s)).2.orders id =
        some { o with status := s } ∧
      ({ o with status := s } : Order).status = s := by
  rw [patchOrder_of_cast hid]
  refine ⟨?_, ?_, rfl⟩
  · simp [ho, setStatus]
  · exact findById_updateById (some s) ho

theorem danglingDB_first : findById Order._id danglingDB.orders ⟨7⟩ = some tacoOrder := by
  simp [findById, danglingDB, tacoOrder]

/-- C2 at the status "bogus". -/
theorem patch_stores_any_status_witness :
    castObjectId firstOrderId = some ⟨7⟩ ∧
      findById Order._id danglingDB.orders ⟨7⟩ = some tacoOrder ∧
      (patchOrder danglingDB firstOrderId (some "bogus")).1 =
        ⟨200, .data (some { tacoOrder with status := "bogus" })⟩ ∧
      findById Order._id (patchOrder danglingDB firstOrderId (some "bogus")).2.orders ⟨7⟩ =
        some { tacoOrder with status := "bogus" } ∧
      ({ tacoOrder with status := "bogus" } : Order).status = "bogus" :=
  ⟨by decide, danglingDB_first,
   patch_stores_any_status danglingDB firstOrderId ⟨7⟩ tacoOrder "bogus" (by decide)
     danglingDB_first⟩

/-- C9, as stated, fails: the path parameter "abc" identifies no stored order, and both
routes answer it with status 500 and an error body, not 200 and null. -/
theorem malformed_orderId_answers_500 :
    (∀ id, castObjectId "abc" = some id → ∀ o ∈ danglingDB.orders, o._id ≠ id) ∧
      patchOrder danglingDB "abc" (some "ready") =
        (⟨500, .error "Failed to update order"⟩, danglingDB) ∧
      getOrderDetail danglingDB "abc" = ⟨500, .error "Failed to fetch order details"⟩ := by
  have h : castObjectId "abc" = none := by decide
  refine ⟨?_, patchOrder_of_malformed h _, ?_⟩
  · intro id hid
    rw [h] at hid
    simp at hid
  · simp [getOrderDetail, h]

/-- C9 (amended): for a well-formed orderId (24 hexadecimal digits) under which no
order is stored, `PATCH /api/orders/:orderId` with any status body and
`GET /api/orders-detail/:orderId` both answer 200 with a null body, and the PATCH
leaves the store unchanged. -/
theorem absent_order_answers_null (db : DB) (orderId : String) (id : ObjectId)
    (status : Option String) (hid : castObjectId orderId = some id)
    (habsent : ∀ o ∈ db.orders, o._id ≠ id) :
    patchOrder db orderId status = (⟨200, .data none⟩, db) ∧
      getOrderDetail db orderId = ⟨200, .data none⟩ := by
  have hnone := findById_eq_none Order._id habsent
  constructor
  · rw [patchOrder_of_cast hid, hnone, updateById_of_absent status habsent]
    rfl
  · simp [getOrderDetail, hid, hnone]

/-- C9 (amended) at an identifier the store does not hold. -/
theorem absent_order_answers_null_witness :
    castObjectId chickenTacoId = some ⟨178⟩ ∧ (∀ o ∈ danglingDB.orders, o._id ≠ ⟨178⟩) ∧
      patchOrder danglingDB chickenTacoId (some "ready") = (⟨200, .data none⟩, danglingDB) ∧
      getOrderDetail danglingDB chickenTacoId = ⟨200, .data none⟩ :=
  have habsent : ∀ o ∈ danglingDB.orders, o._id ≠ ⟨178⟩ := by
    intro o ho
    simp only [danglingDB, List.mem_singleton] at ho
    subst ho
    decide
  ⟨by decide, habsent,
   absent_order_answers_null danglingDB chickenTacoId ⟨178⟩ (some "ready") (by decide) habsent⟩

/-- Agreement outside `status`, field by field. -/
theorem Order.sameButStatus.fields {o o' : Order} (h : o.sameButStatus o') :
    o'._id = o._id ∧ o'.stall_id = o.stall_id ∧ o'.customer_name = o.customer_name ∧
      o'.customer_email = o.customer_email ∧ o'.customer_phone = o.customer_phone ∧
      o'.pickup_time = o.pickup_time ∧ o'.total_amount = o.total_amount ∧
      o'.items = o.items ∧ o'.created_at = o.created_at := by
  unfold Order.sameButStatus at h
  rw [← h]
  exact ⟨rfl, rfl, rfl, rfl, rfl, rfl, rfl, rfl, rfl⟩

/-- C10: `PATCH /api/orders/:orderId`, for every store, path parameter and status body,
leaves the Stall and MenuItem collections as they were, keeps the orders in number
and order, changes no field other than `status` of any order (`_id`, `stall_id`,
the customer fields, `pickup_time`, `total_amount`, `items`, `created_at` are as
before), and changes nothing at all in an order whose `_id` is not the one the path
parameter denotes. -/
theorem patch_frame (db : DB) (orderId : String) (status : Option String) :
    (patchOrder db orderId status).2.stalls = db.stalls ∧
      (patchOrder db orderId status).2.menuItems = db.menuItems ∧
      List.Forall₂
        (fun o o' =>
          (o'._id = o._id ∧ o'.stall_id = o.stall_id ∧ o'.customer_name = o.customer_name ∧
            o'.customer_email = o.customer_email ∧ o'.customer_phone = o.customer_phone ∧
            o'.pickup_time = o.pickup_time ∧ o'.total_amount = o.total_amount ∧
            o'.items = o.items ∧ o'.created_at = o.created_at) ∧
          (castObjectId orderId ≠ some o._id → o' = o))
        db.orders (patchOrder db orderId status).2.orders := by
  cases hid : castObjectId orderId with
  | none =>
    rw [patchOrder_of_malformed hid]
    refine ⟨rfl, rfl, ?_⟩
    apply List.forall₂_same.2
    intro o _
    exact ⟨⟨rfl, rfl, rfl, rfl, rfl, rfl, rfl, rfl, rfl⟩, fun _ => rfl⟩
  | some id =>
    rw [patchOrder_of_cast hid]
    refine ⟨rfl, rfl, ?_⟩
    refine (updateById_frame id status db.orders).imp ?_
    intro o o' h
    refine ⟨h.1.fields, fun hne => h.2 ?_⟩
    intro heq
    exact hne (by rw [heq])

/-! ## Order details -/

theorem getOrderDetail_of_cast {db : DB} {orderId : String} {id : ObjectId}
    (hid : castObjectId orderId = some id) :
    getOrderDetail db orderId =
      ⟨200, .data ((findById Order._id db.orders id).map (populate db))⟩ := by
  simp [getOrderDetail, hid]

/-- C6, as stated, fails: the stored order `tacoOrder` references a stall and a menu
item that the store does not hold; the route answers 200 with that order, and both
the stall field and the line item's menu-item field are null, not documents. -/
theorem detail_of_dangling_reference_is_null :
    findById Order._id danglingDB.orders ⟨7⟩ = some tacoOrder ∧
      ∃ p, getOrderDetail danglingDB firstOrderId = ⟨200, .data (some p)⟩ ∧
        p.stall_id = none ∧ p.items.map PopulatedItem.menu_item_id = [none] := by
  have hid : castObjectId firstOrderId = some ⟨7⟩ := by decide
  refine ⟨danglingDB_first, populate danglingDB tacoOrder, ?_, ?_, ?_⟩
  · rw [getOrderDetail_of_cast hid, danglingDB_first]
    rfl
  · simp [populate, findById, danglingDB]
  · simp [populate, populateItem, findById, danglingDB, tacoOrder]

/-- C6 (amended): for an order stored under the identifier that the path parameter
denotes, `GET /api/orders-detail/:orderId` answers 200 with that order, every field
other than the references as stored, the line items in the stored order and number,
`stall_id` replaced by the stored Stall document with that `_id` when there is one
and by null when there is none, and each line item's `menu_item_id` replaced
likewise by the stored MenuItem document or null; never a bare identifier. -/
theorem detail_populates_references (db : DB) (orderId : String) (id : ObjectId) (o : Order)
    (hid : castObjectId orderId = some id)
    (ho : findById Order._id db.orders id = some o) :
    ∃ p, getOrderDetail db orderId = ⟨200, .data (some p)⟩ ∧
      (p._id = o._id ∧ p.customer_name = o.customer_name ∧
        p.customer_email = o.customer_email ∧ p.customer_phone = o.customer_phone ∧
        p.pickup_time = o.pickup_time ∧ p.status = o.status ∧
        p.total_amount = o.total_amount ∧ p.created_at = o.created_at) ∧
      Resolves Stall._id db.stalls o.stall_id p.stall_id ∧
      List.Forall₂ (PopulatedItem.Populates db) o.items p.items := by
  refine ⟨populate db o, ?_, ⟨rfl, rfl, rfl, rfl, rfl, rfl, rfl, rfl⟩, ?_, ?_⟩
  · rw [getOrderDetail_of_cast hid, ho]
    rfl
  · exact findById_resolves Stall._id db.stalls o.stall_id
  · simp only [populate]
    rw [List.forall₂_map_right_iff]
    apply List.forall₂_same.2
    intro i _
    exact ⟨rfl, rfl, rfl, findById_resolves MenuItem._id db.menuItems i.menu_item_id⟩

theorem seededDB_first : findById Order._id seededDB.orders ⟨7⟩ = some tacoOrder := by
  simp [findById, seededDB, tacoOrder]

/-- C6 (amended) at the seeded store, where both references resolve. -/
theorem detail_populates_references_witness :
    castObjectId firstOrderId = some ⟨7⟩ ∧
      findById Order._id seededDB.orders ⟨7⟩ = some tacoOrder ∧
      ∃ p, getOrderDetail seededDB firstOrderId = ⟨200, .data (some p)⟩ ∧
        (p._id = tacoOrder._id ∧ p.customer_name = tacoOrder.customer_name ∧
          p.customer_email = tacoOrder.customer_email ∧
          p.customer_phone = tacoOrder.customer_phone ∧
          p.pickup_time = tacoOrder.pickup_time ∧ p.status = tacoOrder.status ∧
          p.total_amount = tacoOrder.total_amount ∧ p.created_at = tacoOrder.created_at) ∧
        Resolves Stall._id seededDB.stalls tacoOrder.stall_id p.stall_id ∧
        List.Forall₂ (PopulatedItem.Populates seededDB) tacoOrder.items p.items :=
  ⟨by decide, seededDB_first,
   detail_populates_references seededDB firstOrderId ⟨7⟩ tacoOrder (by decide) seededDB_first⟩

/-! ## Round trip of the line items -/

/-- Validation keeps quantity, price and item name of every parsed line item, in
order. -/
theorem snapshot_of_forall₂ : ∀ {bs : List ItemBody} {l : List OrderItem},
    List.Forall₂ (fun b i => orderItemSchema b = some i) (bs.map ItemBody.parse) l →
      l.map OrderItem.snapshot = bs.map ItemBody.snapshot
  | [], l, hf => by
    simp only [List.map_nil, List.forall₂_nil_left_iff] at hf
    subst hf
    rfl
  | b :: bs, l, hf => by
    simp only [List.map_cons, List.forall₂_cons_left_iff] at hf
    obtain ⟨i, is, hbi, hrest, rfl⟩ := hf
    obtain ⟨_, hq, _, hp, _, hn, _⟩ := orderItemSchema_some hbi
    simp only [List.map_cons, snapshot_of_forall₂ hrest]
    simp only [ItemBody.parse] at hq hp hn
    simp [OrderItem.snapshot, ItemBody.snapshot, hq, hp, hn]

theorem getOrders_of_cast {db : DB} {stallId : String} {sid : ObjectId}
    (h : castObjectId stallId = some sid) :
    getOrders db stallId =
      ⟨200, .data (sortByCreatedDesc (db.orders.filter (fun o => o.stall_id = sid)))⟩ := by
  simp [getOrders, h]

theorem updateById_keeps {id sid : ObjectId} {its : List OrderItem} (uid : ObjectId)
    (st : Option String) :
    ∀ {l : List Order}, (∃ o ∈ l, o._id = id ∧ o.stall_id = sid ∧ o.items = its) →
      ∃ o ∈ updateById uid st l, o._id = id ∧ o.stall_id = sid ∧ o.items = its
  | [], h => by
    obtain ⟨o, ho, _⟩ := h
    simp at ho
  | x :: xs, h => by
    obtain ⟨o, ho, h1, h2, h3⟩ := h
    rcases List.mem_cons.1 ho with rfl | hmem
    · by_cases hx : o._id = uid
      · refine ⟨setStatus st o, ?_, ?_, ?_, ?_⟩
        · simp [updateById, hx]
        · rw [setStatus_id]; exact h1
        · cases st <;> exact h2
        · cases st <;> exact h3
      · exact ⟨o, by simp [updateById, hx], h1, h2, h3⟩
    · obtain ⟨o2, ho2, hrest⟩ := updateById_keeps uid st ⟨o, hmem, h1, h2, h3⟩
      by_cases hx : x._id = uid
      · exact ⟨o, by simp [updateById, hx, hmem], h1, h2, h3⟩
      · exact ⟨o2, by simp [updateById, hx, ho2], hrest⟩

/-- No event removes an order or alters its `_id`, stall or line items. -/
theorem applyEvent_keeps (parseDate : String → Option Date) {db : DB} {id sid : ObjectId}
    {its : List OrderItem} (h : HoldsOrder db id sid its) (ev : Event) :
    HoldsOrder (applyEvent parseDate db ev) id sid its := by
  cases ev with
  | post body newId now =>
    simp only [applyEvent]
    rw [postOrders_eq]
    cases orderSchema (orderInput parseDate body) newId now with
    | none => exact h
    | some o2 =>
      obtain ⟨o, ho, hrest⟩ := h
      exact ⟨o, List.mem_append_left _ ho, hrest⟩
  | patch orderId status =>
    simp only [applyEvent]
    cases hid : castObjectId orderId with
    | none => rw [patchOrder_of_malformed hid]; exact h
    | some uid =>
      rw [patchOrder_of_cast hid]
      exact updateById_keeps uid status h
  | editMenu ms => exact h

theorem applyEvents_keeps (parseDate : String → Option Date) {id sid : ObjectId}
    {its : List OrderItem} :
    ∀ (evs : List Event) {db : DB}, HoldsOrder db id sid its →
      HoldsOrder (applyEvents parseDate db evs) id sid its
  | [], _, h => h
  | ev :: evs, _, h => applyEvents_keeps parseDate evs (applyEvent_keeps parseDate h ev)

/-- C3, as stated, fails: the order created with `"price": 9007199254740993` is listed
by `GET /api/orders/S` with price 9007199254740992, the nearest double, not with
the price submitted. -/
theorem listed_price_is_rounded :
    (∃ L b p, bigPriceBody.items = some L ∧ b ∈ L ∧ b.price = some p ∧
        p.value = 9007199254740993) ∧
      ∃ o, postOrders sampleParseDate emptyDB bigPriceBody ⟨7⟩ 1767000000000 =
          (⟨200, .data ⟨true, ⟨7⟩⟩⟩, { emptyDB with orders := [o] }) ∧
        getOrders { emptyDB with orders := [o] } tacoStallId = ⟨200, .data [o]⟩ ∧
        o.items.map (fun i => i.price.toJSON) = [some 9007199254740992] := by
  refine ⟨⟨_, _, _, rfl, List.mem_singleton.2 rfl, rfl, ?_⟩,
    { tacoOrder with
      items := [⟨⟨178⟩, two, .finite false 4503599627370496 1, "Chicken Taco"⟩] },
    ?_, ?_, ?_⟩
  · norm_num [JsonNumber.value]
  · rw [postOrders_of_some bigPriceBody_saved]
    rfl
  · have hc : castObjectId tacoStallId = some ⟨161⟩ := cast_tacoStall
    rw [getOrders_of_cast hc]
    simp [sortByCreatedDesc, tacoOrder]
  · norm_num [Number.toJSON]

/-- C3 (amended): when `POST /api/orders` for stall S with line items L succeeds, then
after any later sequence of further order creations, status updates and edits of the
MenuItem collection (price or name changes included), `GET /api/orders/S` answers 200
with a list that contains the created order, whose line items are, in the submitted
order, the submitted ones with the same item name and with quantity and price equal
to the doubles nearest the submitted numbers; what is printed for them is the
value of those doubles, or null for an infinite one. -/
theorem order_items_round_trip (parseDate : String → Option Date) (db : DB)
    (body : OrderBody) (newId : ObjectId) (now : Date) (S : String) (evs : List Event)
    (hS : body.stall_id = some S)
    (hok : (postOrders parseDate db body newId now).1.status = 200) :
    (postOrders parseDate db body newId now).1 = ⟨200, .data ⟨true, newId⟩⟩ ∧
      ∃ l o, getOrders (applyEvents parseDate (postOrders parseDate db body newId now).2 evs) S
          = ⟨200, .data l⟩ ∧
        o ∈ l ∧ o._id = newId ∧
        o.items.map OrderItem.snapshot = (body.items.getD []).map ItemBody.snapshot ∧
        (o.items.map OrderItem.snapshot).map printSnapshot =
          ((body.items.getD []).map ItemBody.snapshot).map printSnapshot := by
  obtain ⟨o, ho, hpost⟩ := postOrders_of_ok hok
  obtain ⟨hid, _, hsid, _, _, _, _, _, _, hits⟩ := orderSchema_some ho
  rw [orderInput_items] at hits
  have hcast : castObjectId S = some o.stall_id := by
    simpa [orderInput, hS, requiredObjectId] using hsid
  have hsnap : o.items.map OrderItem.snapshot = (body.items.getD []).map ItemBody.snapshot :=
    snapshot_of_forall₂ (itemsSchema_forall₂ hits)
  rw [hpost]
  refine ⟨rfl, ?_⟩
  have hinit : HoldsOrder { db with orders := db.orders ++ [o] } newId o.stall_id o.items :=
    ⟨o, by simp, hid, rfl, rfl⟩
  obtain ⟨o2, hmem, h1, h2, h3⟩ := applyEvents_keeps parseDate evs hinit
  refine ⟨_, o2, getOrders_of_cast hcast, ?_, h1, ?_, ?_⟩
  · rw [(sortByCreatedDesc_spec _).1.mem_iff]
    simp [List.mem_filter, hmem, h2]
  · rw [h3]
    exact hsnap
  · rw [h3, hsnap]

theorem tacoBody_posted :
    postOrders sampleParseDate emptyDB tacoBody ⟨7⟩ 1767000000000 =
      (⟨200, .data ⟨true, ⟨7⟩⟩⟩, { emptyDB with orders := emptyDB.orders ++ [tacoOrder] }) :=
  postOrders_of_some tacoBody_saved

/-- C3 (amended) at the round-trip example: two Chicken Tacos at 5.99, the menu item
renamed and repriced afterwards. -/
theorem order_items_round_trip_witness :
    tacoBody.stall_id = some tacoStallId ∧
      (postOrders sampleParseDate emptyDB tacoBody ⟨7⟩ 1767000000000).1.status = 200 ∧
      (postOrders sampleParseDate emptyDB tacoBody ⟨7⟩ 1767000000000).1 =
        ⟨200, .data ⟨true, ⟨7⟩⟩⟩ ∧
      ∃ l o, getOrders (applyEvents sampleParseDate
            (postOrders sampleParseDate emptyDB tacoBody ⟨7⟩ 1767000000000).2 laterEvents)
            tacoStallId = ⟨200, .data l⟩ ∧
        o ∈ l ∧ o._id = ⟨7⟩ ∧
        o.items.map OrderItem.snapshot = (tacoBody.items.getD []).map ItemBody.snapshot ∧
        (o.items.map OrderItem.snapshot).map printSnapshot =
          ((tacoBody.items.getD []).map ItemBody.snapshot).map printSnapshot :=
  ⟨rfl, by rw [tacoBody_posted],
   order_items_round_trip sampleParseDate emptyDB tacoBody ⟨7⟩ 1767000000000 tacoStallId
     laterEvents rfl (by rw [tacoBody_posted])⟩

end Festival
